import Mathlib

/-!
Shallow embedding of `src/metrics.go` of the grada repository.

The file translates the data aggregator of `metrics.go` (the `Count` sample
type, the `Metric` ring buffer with its `Add` / `AddWithTime` / `AddCount` /
`fetchDatapoints` operations, and the `Metrics` registry with `Get` / `Put` /
`Delete` / `Create`) into executable Lean definitions, and proves or refutes
the specification claims about them.

Modelling conventions:
- Go `float64` sample values are only ever stored and copied back out, never
  used in arithmetic, so they are modelled as `Int` (which carries every
  concrete value the claims mention exactly).
- `time.Time` timestamps are modelled by their `UnixNano` value as an `Int`;
  the millisecond conversion `t.UnixNano() / 1000000` is Go's truncating
  integer division, modelled by `Int.div`. `time.Now()` is an external input
  and becomes an explicit `now` argument of `Metric.Add`.
- Go slices become `List`; `g.list[i] = c` is `List.set` guarded by the bound
  check Go performs (out of range is a runtime panic), and `% len` is a
  runtime panic when the length is zero. Panics are modelled by
  `Except GoPanic`, in the evaluation order of the Go statements.
- The Go map `map[string]*Metric` becomes an association list
  `List (String × Option Metric)`; the `Option` in the value models the
  `*Metric` pointer (`none` is the nil pointer, which `Delete` stores).
  A present key with a nil value is exactly Go's `m.metric[target] = nil`
  state and is distinct from an absent key.
- Mutexes are dropped: all operations are modelled as sequential state
  transformers (the concurrency claim C9 is handled separately).
-/

deriving instance DecidableEq for Except

/-- The distinct runtime panics the translated Go code can raise:
an out-of-range slice index write, an integer `%` with zero divisor, and
`make` with a negative length. -/
inductive GoPanic where
  | indexOutOfRange
  | divisionByZero
  | makesliceInvalidLen
  deriving Repr, DecidableEq

/-- `Count` from metrics.go: a single time series data tuple of a value `N`
and a timestamp `T` (modelled as the `UnixNano` value of the Go `time.Time`). -/
structure Count where
  N : Int
  T : Int
  deriving Repr, DecidableEq

/-- The Go zero value of `Count`, the content of slots of a freshly made
`[]Count` slice that have not been written yet. -/
def countZero : Count := ⟨0, 0⟩

/-- `Metric` from metrics.go: a ring buffer of Counts, holding the fixed-length
slot slice `list` and the write cursor `head`. The `sync.Mutex` field is not
modelled (operations are sequential state transformers here). -/
structure Metric where
  list : List Count
  head : Nat
  deriving Repr, DecidableEq

/-- `Metric.Add` from metrics.go, with `time.Now()` made an explicit `now`
argument:

  g.list[g.head] = Count{n, time.Now()}
  g.head = (g.head + 1) % len(g.list)

The slot write panics (index out of range) when `head` is not a valid index;
only then would the `%` be evaluated, which panics when the length is zero. -/
def Metric.Add (g : Metric) (n : Int) (now : Int) : Except GoPanic Metric :=
  if g.head < g.list.length then
    let l := g.list.set g.head ⟨n, now⟩
    if l.length = 0 then Except.error GoPanic.divisionByZero
    else Except.ok { list := l, head := (g.head + 1) % l.length }
  else Except.error GoPanic.indexOutOfRange

/-- `Metric.AddCount` from metrics.go: same body as `Add` but with a
caller-supplied `Count`. -/
def Metric.AddCount (g : Metric) (c : Count) : Except GoPanic Metric :=
  if g.head < g.list.length then
    let l := g.list.set g.head c
    if l.length = 0 then Except.error GoPanic.divisionByZero
    else Except.ok { list := l, head := (g.head + 1) % l.length }
  else Except.error GoPanic.indexOutOfRange

/-- `Metric.AddWithTime` from metrics.go: delegates to `AddCount`. -/
def Metric.AddWithTime (g : Metric) (n : Int) (t : Int) : Except GoPanic Metric :=
  g.AddCount ⟨n, t⟩

/-- Modelled from the spec: the exported `row` type is not defined in
`src/metrics.go` (it belongs to the transport layer of the repository).
The spec describes the exported datapoints as ordered
"(value, timestamp-in-milliseconds) pairs", so a row is modelled as a value
paired with a millisecond timestamp. -/
structure row where
  N : Int
  TMs : Int
  deriving Repr, DecidableEq

/-- The Go zero value of a `row`: `make([]row, length)` fills the slice with
`length` copies of it. -/
def rowZero : row := ⟨0, 0⟩

/-- `Metric.fetchDatapoints` from metrics.go:

  length := len(g.list)
  head := g.head
  rows := make([]row, length)
  for i := 0; i < length; i++ {
    count := g.list[(i+head)%length]
    rows = append(rows, row{count.N, count.T.UnixNano() / 1000000})
  }
  return &rows

`make([]row, length)` produces `length` zero-valued rows, and the loop then
appends `length` further rows after them. The `getD` default is never hit:
the loop body only runs for `i < length`, where `(i+head) % length < length`. -/
def Metric.fetchDatapoints (g : Metric) : List row :=
  let length := g.list.length
  let head := g.head
  let rows := List.replicate length rowZero
  rows ++ (List.range length).map (fun i =>
    let count := g.list.getD ((i + head) % length) countZero
    { N := count.N, TMs := count.T.tdiv 1000000 })

/-- `Metrics` from metrics.go: the map of all metric buffers keyed by target
name, modelled as an association list with unique keys. The value type
`Option Metric` models the `*Metric` pointer (`none` = nil pointer). The
`sync.Mutex` field is not modelled. -/
structure Metrics where
  metric : List (String × Option Metric)
  deriving Repr, DecidableEq

/-- Go map assignment `m[k] = v` on the association list: replace the value
when the key is present, insert the pair at the end otherwise. -/
def mapSet : List (String × Option Metric) → String → Option Metric →
    List (String × Option Metric)
  | [], k, v => [(k, v)]
  | p :: rest, k, v => if p.1 = k then (k, v) :: rest else p :: mapSet rest k v

/-- `Metrics.Get` from metrics.go:

  mt, ok := m.metric[target]
  if !ok { return nil, errors.New("no such metric: " + target) }
  return mt, nil

The success value is the looked-up pointer, which is `none` (nil) when the
key is present but maps to nil. -/
def Metrics.Get (m : Metrics) (target : String) : Except String (Option Metric) :=
  match m.metric.lookup target with
  | none => Except.error ("no such metric: " ++ target)
  | some mt => Except.ok mt

/-- `Metrics.Put` from metrics.go: errors when the key is present (with any
value, nil included), otherwise stores the given buffer under the key. -/
def Metrics.Put (m : Metrics) (target : String) (metric : Metric) :
    Except String Metrics :=
  match m.metric.lookup target with
  | some _ => Except.error ("metric " ++ target ++ " already exists")
  | none => Except.ok { metric := mapSet m.metric target (some metric) }

/-- `Metrics.Delete` from metrics.go: errors when the key is absent, and
otherwise executes `m.metric[target] = nil` — it stores the nil pointer under
the key instead of deleting the key. -/
def Metrics.Delete (m : Metrics) (target : String) : Except String Metrics :=
  match m.metric.lookup target with
  | none => Except.error ("cannot delete metric: " ++ target ++ " does not exist")
  | some _ => Except.ok { metric := mapSet m.metric target none }

/-- `make([]Count, size, size)` with a Go `int` length: panics when the length
is negative, otherwise yields `size` zero-valued Counts. -/
def newCountList (size : Int) : Except GoPanic (List Count) :=
  if size < 0 then Except.error GoPanic.makesliceInvalidLen
  else Except.ok (List.replicate size.toNat countZero)

/-- `Metrics.Create` from metrics.go:

  metric := &Metric{ list: make([]Count, size, size) }
  m.Put(target, metric)
  return metric, nil

The result carries the updated map, the returned buffer and the returned
error value. The code discards the result of `Put` (when `Put` errors the
map is unchanged) and returns a nil error in every non-panicking case, which
the model makes visible as the constant `none` in the third component. -/
def Metrics.Create (m : Metrics) (target : String) (size : Int) :
    Except GoPanic (Metrics × Metric × Option String) :=
  match newCountList size with
  | Except.error p => Except.error p
  | Except.ok l =>
    let metric : Metric := { list := l, head := 0 }
    match m.Put target metric with
    | Except.ok m2 => Except.ok (m2, metric, none)
    | Except.error _ => Except.ok (m, metric, none)

/-- The buffer `Create` builds for a non-negative size: a fresh ring buffer of
`size` zero-valued slots with the cursor at 0. -/
def newMetric (size : Nat) : Metric :=
  { list := List.replicate size countZero, head := 0 }

/-- Run a sequence of `Add` calls left to right; each pair is the value and
the wall-clock `now` of that call. -/
def addRun (g : Metric) (vs : List (Int × Int)) : Except GoPanic Metric :=
  List.foldlM (fun g p => Metric.Add g p.1 p.2) g vs

/-- Snapshot after a sequence of `Add` calls on a freshly created buffer of
capacity `C`: `none` when some call panicked. -/
def runAdds (C : Nat) (vs : List (Int × Int)) : Option (List row) :=
  match addRun (newMetric C) vs with
  | Except.ok g => some g.fetchDatapoints
  | Except.error _ => none

/-! ## Helper lemmas -/

/-- When the cursor is in range, `AddCount` succeeds: the slot at the cursor is
overwritten and the cursor advances by one modulo the (unchanged) length. -/
theorem addCount_eq_of_head_lt (g : Metric) (c : Count) (h : g.head < g.list.length) :
    g.AddCount c = Except.ok
      { list := g.list.set g.head c, head := (g.head + 1) % g.list.length } := by
  have hlen : (g.list.set g.head c).length = g.list.length := by simp
  have hne : ¬ g.list = [] := by
    intro he
    rw [he] at h
    simp at h
  simp [Metric.AddCount, h, hlen, hne]

/-- When the cursor is in range, `Add` succeeds with the same state change as
`AddCount` on the synthesized sample. -/
theorem add_eq_of_head_lt (g : Metric) (n now : Int) (h : g.head < g.list.length) :
    g.Add n now = Except.ok
      { list := g.list.set g.head ⟨n, now⟩, head := (g.head + 1) % g.list.length } := by
  have hlen : (g.list.set g.head ⟨n, now⟩).length = g.list.length := by simp
  have hne : ¬ g.list = [] := by
    intro he
    rw [he] at h
    simp at h
  simp [Metric.Add, h, hlen, hne]

/-! ## Claim theorems -/

/-- C1: the claim says the snapshot after N Adds on a fresh buffer of capacity
C has length min(N, C). The code disagrees: with capacity 3 and one Add the
snapshot has length 6 (fetchDatapoints pre-fills capacity zero rows with make
and then appends capacity more; it never tracks how many samples were
written), not min(1, 3) = 1. -/
theorem c1_snapshot_length_failing :
    (runAdds 3 [(5, 1000000)]).map List.length = some 6 ∧
    ¬ (runAdds 3 [(5, 1000000)]).map List.length = some (min 1 3) := by
  decide

/-- C2: the claim says that with capacity 3, after Add(1), Add(2), Add(3),
Add(4) (here at wall-clock times 1..4 ms) the snapshot is exactly the rows
[2, 3, 4] with their original timestamps. The code returns those three rows
only after three zero-valued rows pre-filled by make. -/
theorem c2_snapshot_window_failing :
    runAdds 3 [(1, 1000000), (2, 2000000), (3, 3000000), (4, 4000000)] =
      some [rowZero, rowZero, rowZero, ⟨2, 2⟩, ⟨3, 3⟩, ⟨4, 4⟩] ∧
    ¬ runAdds 3 [(1, 1000000), (2, 2000000), (3, 3000000), (4, 4000000)] =
      some [⟨2, 2⟩, ⟨3, 3⟩, ⟨4, 4⟩] := by
  decide

/-- C3: the claim says that with capacity 5, after Add(10), Add(20) the
snapshot is exactly [10, 20] and never-written slots are never exposed. The
code returns ten rows: five zero rows from make, then the walk over all five
slots starting at the cursor, which surfaces the three never-written
zero-valued slots before the two real samples. -/
theorem c3_partial_fill_failing :
    runAdds 5 [(10, 1000000), (20, 2000000)] =
      some [rowZero, rowZero, rowZero, rowZero, rowZero,
            ⟨0, 0⟩, ⟨0, 0⟩, ⟨0, 0⟩, ⟨10, 1⟩, ⟨20, 2⟩] ∧
    ¬ runAdds 5 [(10, 1000000), (20, 2000000)] = some [⟨10, 1⟩, ⟨20, 2⟩] := by
  decide

/-- C4: the claim says a successful Delete removes the key entirely so the
name is reusable. The code stores a nil pointer under the key instead: after
Delete("x") the key "x" is still present (mapping to nil), a subsequent
Put("x") fails with the already-exists error, and a subsequent Create("x", 3)
leaves the registry unchanged (its internal Put fails and the error is
discarded). -/
theorem c4_delete_leaves_key :
    Metrics.Delete ⟨[("x", some (newMetric 3))]⟩ "x" = Except.ok ⟨[("x", none)]⟩ ∧
    (Metrics.mk [("x", none)]).metric.lookup "x" = some none ∧
    Metrics.Put ⟨[("x", none)]⟩ "x" (newMetric 3) =
      Except.error "metric x already exists" ∧
    Metrics.Create ⟨[("x", none)]⟩ "x" 3 =
      Except.ok (⟨[("x", none)]⟩, newMetric 3, none) := by
  decide

/-- C5: the claim says Get fails with SeriesNotFound both for never-registered
names and after a Delete. The code errors only for absent keys: Get("y") on an
empty registry errors, but after Delete("x") the key is still present mapping
to nil, so Get("x") returns the nil buffer with a nil error instead of
failing. -/
theorem c5_get_after_delete :
    Metrics.Get ⟨[]⟩ "y" = Except.error "no such metric: y" ∧
    Metrics.Delete ⟨[("x", some (newMetric 5))]⟩ "x" = Except.ok ⟨[("x", none)]⟩ ∧
    Metrics.Get ⟨[("x", none)]⟩ "x" = Except.ok none := by
  decide

/-- C6: the claim says both Create and Put on an existing name fail with
SeriesAlreadyExists and leave the mapping unchanged. Put does; Create calls
Put, discards its error, and returns the (unregistered) fresh buffer with a
nil error, so Create does not fail as the claim requires (the mapping is
left unchanged). -/
theorem c6_create_swallows_error :
    Metrics.Put ⟨[("x", some (newMetric 3))]⟩ "x" (newMetric 5) =
      Except.error "metric x already exists" ∧
    Metrics.Create ⟨[("x", some (newMetric 3))]⟩ "x" 5 =
      Except.ok (⟨[("x", some (newMetric 3))]⟩, newMetric 5, none) := by
  decide

/-- C7: the claim says Create with capacity ≤ 0 fails with InvalidCapacity and
registers nothing. The code performs no capacity validation: Create("x", 0)
succeeds with a nil error and registers a zero-slot buffer, and a negative
size panics inside make instead of returning an error value. -/
theorem c7_no_capacity_validation :
    Metrics.Create ⟨[]⟩ "x" 0 =
      Except.ok (⟨[("x", some (newMetric 0))]⟩, newMetric 0, none) ∧
    Metrics.Create ⟨[]⟩ "x" (-1) = Except.error GoPanic.makesliceInvalidLen := by
  decide

/-- C8: for every capacity C ≥ 1 the cursor invariant 0 ≤ head < capacity
holds after construction and is preserved by every Add, AddWithTime and
AddCount operation (each of which succeeds and leaves the capacity
unchanged). The lower bound 0 ≤ head is inherent in the Nat model. -/
theorem c8_head_invariant (C : Nat) (hC : 1 ≤ C) :
    ((newMetric C).list.length = C ∧ (newMetric C).head < C) ∧
    (∀ g : Metric, g.list.length = C → g.head < C →
      (∀ n t, ∃ g2, g.Add n t = Except.ok g2 ∧ g2.list.length = C ∧ g2.head < C) ∧
      (∀ n t, ∃ g2, g.AddWithTime n t = Except.ok g2 ∧ g2.list.length = C ∧ g2.head < C) ∧
      (∀ c, ∃ g2, g.AddCount c = Except.ok g2 ∧ g2.list.length = C ∧ g2.head < C)) := by
  have hC0 : 0 < C := hC
  constructor
  · exact ⟨by simp [newMetric], by simpa [newMetric] using hC0⟩
  · intro g hlen hhead
    have hl : g.head < g.list.length := by omega
    have hmod : (g.head + 1) % g.list.length < C := by
      rw [hlen]
      exact Nat.mod_lt _ hC0
    refine ⟨?_, ?_, ?_⟩
    · intro n t
      exact ⟨_, add_eq_of_head_lt g n t hl, by simp [hlen], hmod⟩
    · intro n t
      exact ⟨_, addCount_eq_of_head_lt g ⟨n, t⟩ hl, by simp [hlen], hmod⟩
    · intro c
      exact ⟨_, addCount_eq_of_head_lt g c hl, by simp [hlen], hmod⟩

/-- Witness for the C8 invariant theorem at capacity 3. -/
theorem c8_head_invariant_witness :
    1 ≤ 3 ∧
    (((newMetric 3).list.length = 3 ∧ (newMetric 3).head < 3) ∧
     (∀ g : Metric, g.list.length = 3 → g.head < 3 →
       (∀ n t, ∃ g2, g.Add n t = Except.ok g2 ∧ g2.list.length = 3 ∧ g2.head < 3) ∧
       (∀ n t, ∃ g2, g.AddWithTime n t = Except.ok g2 ∧ g2.list.length = 3 ∧ g2.head < 3) ∧
       (∀ c, ∃ g2, g.AddCount c = Except.ok g2 ∧ g2.list.length = 3 ∧ g2.head < 3))) :=
  ⟨by decide, c8_head_invariant 3 (by decide)⟩

/-- C10 counterexample: the claim attributes the panic on a capacity-0 buffer
to the integer modulo by zero in the head update; in the code the slot write
`g.list[g.head] = c` executes first and panics with an index out of range, so
the modulo is never reached. -/
theorem c10_counterexample :
    Metric.AddCount (newMetric 0) countZero = Except.error GoPanic.indexOutOfRange ∧
    ¬ Metric.AddCount (newMetric 0) countZero = Except.error GoPanic.divisionByZero ∧
    Metric.Add (newMetric 0) 1 0 = Except.error GoPanic.indexOutOfRange ∧
    Metric.AddWithTime (newMetric 0) 1 0 = Except.error GoPanic.indexOutOfRange := by
  decide

/-- C10 (amended): Create accepts size 0 without error and registers a buffer
whose internal list has length 0; on every such buffer each Add, AddWithTime
or AddCount call panics — with an index-out-of-range panic on the slot write,
since the empty list has no slot at the cursor — rather than returning an
error value, so the add operations are not total over all buffers Create can
produce. -/
theorem c10_zero_capacity (m : Metrics) (hm : m.metric.lookup "x" = none)
    (g : Metric) (hg : g.list.length = 0) :
    (∃ m2, Metrics.Create m "x" 0 = Except.ok (m2, newMetric 0, none)) ∧
    (newMetric 0).list.length = 0 ∧
    (∀ n t, g.Add n t = Except.error GoPanic.indexOutOfRange) ∧
    (∀ n t, g.AddWithTime n t = Except.error GoPanic.indexOutOfRange) ∧
    (∀ c, g.AddCount c = Except.error GoPanic.indexOutOfRange) := by
  have hlt : ¬ g.head < g.list.length := by omega
  refine ⟨⟨⟨mapSet m.metric "x" (some (newMetric 0))⟩, ?_⟩, by simp [newMetric], ?_, ?_, ?_⟩
  · simp [Metrics.Create, newCountList, Metrics.Put, hm, newMetric]
  · intro n t
    simp [Metric.Add, hlt]
  · intro n t
    simp [Metric.AddWithTime, Metric.AddCount, hlt]
  · intro c
    simp [Metric.AddCount, hlt]

/-- Witness for the amended C10 theorem: the empty registry and the
capacity-0 buffer Create builds. -/
theorem c10_zero_capacity_witness :
    ((Metrics.mk []).metric.lookup "x" = none ∧ (newMetric 0).list.length = 0) ∧
    ((∃ m2, Metrics.Create ⟨[]⟩ "x" 0 = Except.ok (m2, newMetric 0, none)) ∧
     (newMetric 0).list.length = 0 ∧
     (∀ n t, (newMetric 0).Add n t = Except.error GoPanic.indexOutOfRange) ∧
     (∀ n t, (newMetric 0).AddWithTime n t = Except.error GoPanic.indexOutOfRange) ∧
     (∀ c, (newMetric 0).AddCount c = Except.error GoPanic.indexOutOfRange)) :=
  ⟨⟨rfl, rfl⟩, c10_zero_capacity ⟨[]⟩ rfl (newMetric 0) rfl⟩
